import Mathlib

/-!
# The libdnf error model: `libdnf/common/exception.cpp`

A shallow embedding of the exception classes of libdnf and of their
`what()` members.

Conventions of the embedding.

* C++ text (`std::string`, `const char *`) is a `String`; a null
  `const char *` is `none`.  Every `what()` hands its result out as a
  `const char *`, so texts are taken to be free of NUL characters.
* A `mutable` member written by a `const` member function is made explicit:
  `what` returns the text together with the object after the call.
* A `try { ... } catch (...) { ... }` block is modelled by giving the guarded
  computation an outcome: either it yields its value or it throws.  What may
  throw is either a value of the object (the formatter, a closure that may
  fail) or the run-time library (building a string); the latter is an explicit
  fault argument of the operation.
* The translation lookup `TM_(format, 1)` and the platform message lookup
  `std::system_category().default_error_condition(code).message()` are
  services of the environment, collected in `Env`.
-/

namespace Libdnf

/-- The deferred formatter stored in an `Error`: the C++ member
`std::function<std::string(const char * format)> formatter`.  It receives the
looked-up format string and either returns the formatted text or throws
(`none`). -/
abbrev Formatter := String → Option String

/-- Services of the environment used by `exception.cpp`.

* `tm format` is `TM_(format, 1)`: the translation lookup of a format
  template; it is a C function and cannot throw.
* `os_message code` is
  `std::system_category().default_error_condition(code).message()`; `none`
  stands for the call throwing. -/
structure Env where
  tm : String → String
  os_message : Int → Option String

/-- The class `Error` (derived from `std::runtime_error`).

* `what_arg` is the text held by the `std::runtime_error` base, returned by
  `std::runtime_error::what()`;
* `message` is `mutable std::string message`;
* `format` is the member `format`, the format template (translation key);
* `formatter` is the member `formatter`; an empty `std::function` is `none`. -/
structure Error where
  what_arg : String
  message : String
  format : String
  formatter : Option Formatter

/-- Modelled from the spec: the constructor of `Error`, declared in
`libdnf/common/exception.hpp`, which is not among the sources.  The spec gives
`construct(format_template, formatter = none, ...)`; the
`std::runtime_error` base is initialised with the untranslated template and
the message starts empty. -/
def Error.ctor (format : String) (formatter : Option Formatter) : Error :=
  { what_arg := format, message := "", format := format, formatter := formatter }

/-- Where the body of `Error::operator=` throws, if it does: copying the
message (`message = e.message`) or copying the formatter
(`formatter = e.formatter`).  Copying `format` cannot throw. -/
inductive CopyFault where
  | none
  | message
  | formatter
  deriving DecidableEq, Repr

/-- `Error & Error::operator=(const Error & e) noexcept`.

The `std::runtime_error` base is assigned first, outside the `try` block.  Then
`message`, `format` and `formatter` are assigned in this order inside
`try { ... } catch (...) {}`: a throwing assignment leaves its target as it
was and skips the assignments after it.  Copying an empty `std::function`
does not throw. -/
def Error.assign (self e : Error) (fault : CopyFault) : Error :=
  let self1 : Error := { self with what_arg := e.what_arg }
  match fault with
  | CopyFault.message => self1
  | CopyFault.formatter =>
    match e.formatter with
    | Option.none => { self1 with message := e.message, format := e.format, formatter := Option.none }
    | Option.some _ => { self1 with message := e.message, format := e.format }
  | CopyFault.none =>
    { self1 with message := e.message, format := e.format, formatter := e.formatter }

/-- `Error::Error(const Error & e) noexcept : std::runtime_error(e)`, whose body
is `operator=(e)`.  Before the body runs `message` is the empty string and
`formatter` is empty; `format` has no initialiser, its value `uninit` is
whatever the storage holds. -/
def Error.copy_ctor (e : Error) (fault : CopyFault) (uninit : String) : Error :=
  Error.assign
    { what_arg := e.what_arg, message := "", format := uninit, formatter := Option.none }
    e fault

/-- `const char * Error::what() const noexcept`: the returned text and the
object after the call. -/
def Error.what (env : Env) (self : Error) : String × Error :=
  match self.formatter with
  | Option.none => (env.tm self.format, self)
  | Option.some f =>
    match f (env.tm self.format) with
    | Option.some s => (s, { self with message := s })
    | Option.none => (self.what_arg, self)

/-- The struct `SourceLocation`: where an assertion was raised.  `source_line` is
an `unsigned int`. -/
structure SourceLocation where
  file_name : String
  source_line : Nat
  function_name : String

/-- Where the `try` block of `AssertionError::what` and of
`UserAssertionError::what` throws, if it does: while building
`file:line: function`, while appending the assertion label, or while
appending the message. -/
inductive ComposeFault where
  | none
  | location
  | label
  | message
  deriving DecidableEq, Repr

/-- The class `AssertionError` (derived from `std::logic_error`).

* `what_arg` is the text held by the `std::logic_error` base, the message;
* `condition` is `const char * condition`, `none` for a null pointer;
* `str_what` is `mutable std::string str_what`. -/
structure AssertionError where
  what_arg : String
  condition : Option String
  location : SourceLocation
  str_what : String

/-- The constructor
`AssertionError::AssertionError(const char * assertion, const SourceLocation & location, const std::string & message)`. -/
def AssertionError.ctor (assertion : Option String) (location : SourceLocation)
    (message : String) : AssertionError :=
  { what_arg := message, condition := assertion, location := location, str_what := "" }

/-- The first statement of both `what()` bodies:
`location.file_name + std::string(":") + std::to_string(location.source_line) + ": " + location.function_name`. -/
def SourceLocation.text (location : SourceLocation) : String :=
  location.file_name ++ ":" ++ Nat.repr location.source_line ++ ": " ++ location.function_name

/-- `const char * AssertionError::what() const noexcept`: the returned text and
the object after the call.  The `try` block assigns the location text to
`str_what`, appends the assertion label, appends the message
(`logic_error::what()`) and returns `str_what`; when one of these steps
throws, `str_what` keeps what the steps before it built and the `catch`
branch returns `logic_error::what()`. -/
def AssertionError.what (self : AssertionError) (fault : ComposeFault) :
    String × AssertionError :=
  let s1 := self.location.text
  let s2 :=
    match self.condition with
    | Option.some c => s1 ++ ((": Assertion \x27" ++ c) ++ "\x27 failed: ")
    | Option.none => s1 ++ ": Assertion failed: "
  let s3 := s2 ++ self.what_arg
  match fault with
  | ComposeFault.location => (self.what_arg, self)
  | ComposeFault.label => (self.what_arg, { self with str_what := s1 })
  | ComposeFault.message => (self.what_arg, { self with str_what := s2 })
  | ComposeFault.none => (s3, { self with str_what := s3 })

/-- The class `UserAssertionError` (derived from `std::logic_error`), with the
same members as `AssertionError`. -/
structure UserAssertionError where
  what_arg : String
  condition : Option String
  location : SourceLocation
  str_what : String

/-- The constructor
`UserAssertionError::UserAssertionError(const char * assertion, const SourceLocation & location, const std::string & message)`. -/
def UserAssertionError.ctor (assertion : Option String) (location : SourceLocation)
    (message : String) : UserAssertionError :=
  { what_arg := message, condition := assertion, location := location, str_what := "" }

/-- `const char * UserAssertionError::what() const noexcept`: the returned text
and the object after the call; the body is that of `AssertionError::what` with
the label `API Assertion`. -/
def UserAssertionError.what (self : UserAssertionError) (fault : ComposeFault) :
    String × UserAssertionError :=
  let s1 := self.location.text
  let s2 :=
    match self.condition with
    | Option.some c => s1 ++ ((": API Assertion \x27" ++ c) ++ "\x27 failed: ")
    | Option.none => s1 ++ ": API Assertion failed: "
  let s3 := s2 ++ self.what_arg
  match fault with
  | ComposeFault.location => (self.what_arg, self)
  | ComposeFault.label => (self.what_arg, { self with str_what := s1 })
  | ComposeFault.message => (self.what_arg, { self with str_what := s2 })
  | ComposeFault.none => (s3, { self with str_what := s3 })

/-- Decimal text of an `int`, as `fmt::format` prints it in a replacement field. -/
def to_decimal : Int → String
  | Int.ofNat n => Nat.repr n
  | Int.negSucc n => "-" ++ Nat.repr (n + 1)

/-- The class `SystemError` (derived from `Error`): the members of `Error`, the
platform error code and the flag telling that the format template is a user
message. -/
structure SystemError extends Error where
  error_code : Int
  has_user_message : Bool

/-- The constructor
`SystemError::SystemError(int error_code) : Error(M_("System error")), error_code(error_code), has_user_message(false)`.
The base is built by `Error.ctor` from the template `System error`. -/
def SystemError.ctor (error_code : Int) : SystemError :=
  { toError := Error.ctor "System error" Option.none,
    error_code := error_code, has_user_message := false }

/-- `std::string SystemError::get_error_message() const`: the platform message
alone; `none` when the lookup throws (the member is not `noexcept`). -/
def SystemError.get_error_message (env : Env) (self : SystemError) : Option String :=
  env.os_message self.error_code

/-- `const char * SystemError::what() const noexcept`: the returned text and the
object after the call.  `fmt_throws` tells whether the call of `fmt::format`
throws.  The platform message is looked up first, a throwing lookup leaving
`error_message` empty.  With a user message, the formatter (when present) and
`fmt::format` run inside one `try` block whose `catch` branch returns
`TM_(format, 1)`; without one, the `catch` branch returns
`std::runtime_error::what()` when `error_message` is empty and moves
`error_message` into `message` otherwise. -/
def SystemError.what (env : Env) (self : SystemError) (fmt_throws : Bool) :
    String × SystemError :=
  let error_message : String :=
    match env.os_message self.error_code with
    | Option.some m => m
    | Option.none => ""
  if self.has_user_message then
    let user : Option String :=
      match self.formatter with
      | Option.some f => f (env.tm self.format)
      | Option.none => Option.some (env.tm self.format)
    match user, fmt_throws with
    | Option.some u, false =>
      let m := u ++ ": (" ++ to_decimal self.error_code ++ ") - " ++ error_message
      (m, { self with message := m })
    | _, _ => (env.tm self.format, self)
  else
    if fmt_throws then
      if error_message = "" then
        (self.what_arg, self)
      else
        (error_message, { self with message := error_message })
    else
      let m := "(" ++ to_decimal self.error_code ++ ") - " ++ error_message
      (m, { self with message := m })

/-- A translation catalogue with a single entry: the lookup returns the
template itself for every key it does not know. -/
def sample_tm (format : String) : String :=
  if format = "System error" then "Systemfehler" else format

/-- A platform message table with two entries; the lookup throws on code 99. -/
def sample_os_message (code : Int) : Option String :=
  if code = 2 then Option.some "No such file or directory"
  else if code = 99 then Option.none
  else if code = 13 then Option.some "Permission denied"
  else Option.some ""

/-- A sample environment. -/
def sample_env : Env :=
  { tm := sample_tm, os_message := sample_os_message }

/-- A formatter that appends a repository name to the template. -/
def sample_formatter : Formatter :=
  fun format => Option.some (format ++ " [repo main]")

/-- A formatter that always throws. -/
def failing_formatter : Formatter :=
  fun _ => Option.none

/-- The formatter of a template without arguments: it returns the template. -/
def plain_formatter : Formatter :=
  fun format => Option.some format

/-- An error whose `what()` was called, so that `message` holds the formatted
text, and a copy of it whose construction failed while copying the
formatter. -/
def described_error : Error :=
  (Error.what sample_env (Error.ctor "System error" (Option.some sample_formatter))).2

/-- The degraded copy of `described_error`. -/
def degraded_copy : Error :=
  Error.copy_ctor described_error CopyFault.formatter ""

/-- What `format` observes of one exception object of the chain.

* `error`: the dynamic type is derived from `Error`
  (`dynamic_cast<const Error *>` succeeds); the three texts are what the virtual
  calls `get_domain_name()`, `get_name()` and `what()` return;
* `other`: any other `std::exception`; the text is what `what()` returns. -/
inductive ExceptionInfo where
  | error (domain_name name what : String)
  | other (what : String)

/-- An exception as `format` receives it, with what is nested in it
(`std::throw_with_nested` inside a handler).

* `plain`: nothing is nested, `std::rethrow_if_nested` returns;
* `nested`: the nested exception is derived from `std::exception`;
* `nested_other`: the nested exception is of another type, so it is caught by
  `catch (...)`; `thrown` describes the thrown value and `beneath` the
  exceptions nested in turn beneath it. -/
inductive Exception where
  | plain (info : ExceptionInfo)
  | nested (info : ExceptionInfo) (cause : Exception)
  | nested_other (info : ExceptionInfo) (thrown : String) (beneath : List ExceptionInfo)

/-- The text `std::string(level, ' ')`: `level` space characters. -/
def indent (level : Nat) : String :=
  String.mk (List.replicate level ' ')

/-- The first part of the body of the static `format(e, level, with_domain)`, up
to the `try` block: the value of `ret` built for the exception itself.  The
two `fmt::format` calls print `domain::name: what` and `name: what`, each
with a newline. -/
def format_head (info : ExceptionInfo) (level : Nat) (with_domain : Bool) : String :=
  let ret := indent level
  match info with
  | ExceptionInfo.error domain_name name what =>
    if with_domain then
      ret ++ (domain_name ++ "::" ++ name ++ ": " ++ what ++ "\n")
    else
      ret ++ (name ++ ": " ++ what ++ "\n")
  | ExceptionInfo.other what => (ret ++ what) ++ "\n"

/-- The static function
`std::string format(const std::exception & e, std::size_t level, bool with_domain)`:
after building the line of `e`, `std::rethrow_if_nested(e)` runs inside a
`try` block; a nested `std::exception` is rendered at `level + 1` and
appended, any other nested exception is swallowed by `catch (...)`. -/
def format_level : Exception → Nat → Bool → String
  | Exception.plain info, level, with_domain => format_head info level with_domain
  | Exception.nested info cause, level, with_domain =>
    format_head info level with_domain ++ format_level cause (level + 1) with_domain
  | Exception.nested_other info _ _, level, with_domain => format_head info level with_domain

/-- `std::string format(const std::exception & e, bool with_domain)`. -/
def format (e : Exception) (with_domain : Bool) : String :=
  format_level e 0 with_domain

/-- The exception objects of a chain that are reached through nested
`std::exception`s, outermost first. -/
def Exception.infos : Exception → List ExceptionInfo
  | Exception.plain info => [info]
  | Exception.nested info cause => info :: Exception.infos cause
  | Exception.nested_other info _ _ => [info]

/-- The chain with a nested exception that is no `std::exception` cut off,
together with all that is beneath it. -/
def Exception.cut : Exception → Exception
  | Exception.plain info => Exception.plain info
  | Exception.nested info cause => Exception.nested info (Exception.cut cause)
  | Exception.nested_other info _ _ => Exception.plain info

/-- The line text of one exception as the spec words it: `domain::name: description`
when domain and name are present and `with_domain` is set, `name: description`
when they are present and `with_domain` is not set, the description alone when
they are absent. -/
def spec_line_text (info : ExceptionInfo) (with_domain : Bool) : String :=
  match info with
  | ExceptionInfo.error domain_name name description =>
    if with_domain then domain_name ++ "::" ++ name ++ ": " ++ description
    else name ++ ": " ++ description
  | ExceptionInfo.other description => description

/-- The lines of a rendering as the spec words them: one line for each exception,
the line at depth `i` made of `i` spaces, the line text and a newline. -/
def spec_lines (infos : List ExceptionInfo) (level : Nat) (with_domain : Bool) : List String :=
  List.map (fun p => indent p.1 ++ spec_line_text p.2 with_domain ++ "\n")
    (List.enumFrom level infos)

/-- A chain of three errors with domain and name: a transaction error caused by
a database error caused by a system error. -/
def sample_chain : Exception :=
  Exception.nested (ExceptionInfo.error "libdnf::transaction" "TransactionError" "apply failed")
    (Exception.nested (ExceptionInfo.error "libdnf::utils" "SQLite3Error" "write failed")
      (Exception.plain (ExceptionInfo.error "libdnf" "SystemError" "(28) - No space left on device")))

/-- A chain whose second cause is no `std::exception`: an error caused by a plain
`std::exception` caused by a thrown integer, beneath which an error is
nested. -/
def sample_cut_chain : Exception :=
  Exception.nested (ExceptionInfo.error "libdnf" "Error" "outer")
    (Exception.nested_other (ExceptionInfo.other "std::exception") "42"
      [ExceptionInfo.error "libdnf" "Error" "hidden"])

/-- A system error with a user message and no formatter. -/
def sample_user_error : SystemError :=
  { toError := Error.ctor "opening config" Option.none, error_code := 2, has_user_message := true }

/-- The target of an assignment that failed while copying the message: an error
with the template `Repository failure` and a formatter that throws, assigned
from an error with the template `System error`. -/
def degraded_target : Error :=
  Error.assign (Error.ctor "Repository failure" (Option.some failing_formatter))
    (Error.ctor "System error" (Option.some plain_formatter)) CopyFault.message

/-! ## Helper lemmas -/

/-- The constructor initialises the `std::runtime_error` base with the
untranslated format template. -/
theorem Error_ctor_what_arg (format : String) (formatter : Option Formatter) :
    (Error.ctor format formatter).what_arg = (Error.ctor format formatter).format := rfl

/-- With no formatter, `Error::what` returns the looked-up template and leaves
the object alone. -/
theorem Error_what_formatter_none (env : Env) (e : Error) (h : e.formatter = Option.none) :
    Error.what env e = (env.tm e.format, e) := by
  unfold Error.what
  rw [h]

/-- With a formatter that succeeds, `Error::what` returns its output and stores
it in `message`. -/
theorem Error_what_formatter_some (env : Env) (e : Error) (f : Formatter) (s : String)
    (h : e.formatter = Option.some f) (hs : f (env.tm e.format) = Option.some s) :
    Error.what env e = (s, { e with message := s }) := by
  unfold Error.what
  rw [h]
  simp only [hs]

/-- With a formatter that throws, `Error::what` returns the text of the
`std::runtime_error` base and leaves the object alone. -/
theorem Error_what_formatter_throws (env : Env) (e : Error) (f : Formatter)
    (h : e.formatter = Option.some f) (hs : f (env.tm e.format) = Option.none) :
    Error.what env e = (e.what_arg, e) := by
  unfold Error.what
  rw [h]
  simp only [hs]

/-- The text returned by `SystemError::what` does not depend on what `message`
holds before the call. -/
theorem SystemError_what_message_irrelevant (env : Env) (e : SystemError) (m : String)
    (fmt_throws : Bool) :
    (SystemError.what env { e with message := m } fmt_throws).1
      = (SystemError.what env e fmt_throws).1 := by
  unfold SystemError.what
  simp only
  split
  · split <;> rfl
  · split
    · split <;> rfl
    · rfl

/-- The only member `SystemError::what` may write is `message`. -/
theorem SystemError_what_object (env : Env) (e : SystemError) (fmt_throws : Bool) :
    ∃ m : String, (SystemError.what env e fmt_throws).2 = { e with message := m } := by
  unfold SystemError.what
  simp only
  split
  · split
    · exact ⟨_, rfl⟩
    · exact ⟨e.message, rfl⟩
  · split
    · split
      · exact ⟨e.message, rfl⟩
      · exact ⟨_, rfl⟩
    · exact ⟨_, rfl⟩

/-- The text returned by `Error::what` does not depend on what `message` holds
before the call. -/
theorem Error_what_message_irrelevant (env : Env) (e : Error) (m : String) :
    (Error.what env { e with message := m }).1 = (Error.what env e).1 := by
  unfold Error.what
  simp only
  split
  · rfl
  · split <;> rfl

/-- The only member `Error::what` may write is `message`. -/
theorem Error_what_object (env : Env) (e : Error) :
    ∃ m : String, (Error.what env e).2 = { e with message := m } := by
  unfold Error.what
  split
  · exact ⟨e.message, rfl⟩
  · split
    · exact ⟨_, rfl⟩
    · exact ⟨e.message, rfl⟩

/-! ## `Error::what` -/

/-- C1. `Error::what`: when the formatter is present and succeeds on the
looked-up template, the returned text is the formatter's output
`formatter(TM_(format, 1))`; when the formatter is absent, the returned text
is the looked-up template `TM_(format, 1)` with no formatter applied. -/
theorem Error_what_text (env : Env) (e : Error) :
    (∀ (f : Formatter) (s : String), e.formatter = Option.some f →
        f (env.tm e.format) = Option.some s → (Error.what env e).1 = s) ∧
      (e.formatter = Option.none → (Error.what env e).1 = env.tm e.format) := by
  constructor
  · intro f s hf hs
    rw [Error_what_formatter_some env e f s hf hs]
  · intro hf
    rw [Error_what_formatter_none env e hf]

/-- Witness of C1: a translated template, once with a formatter and once
without. -/
theorem Error_what_text_witness :
    (Error.what sample_env (Error.ctor "System error" (Option.some sample_formatter))).1
        = "Systemfehler [repo main]" ∧
      (Error.what sample_env (Error.ctor "System error" Option.none)).1 = "Systemfehler" :=
  ⟨(Error_what_text sample_env (Error.ctor "System error" (Option.some sample_formatter))).1
      sample_formatter "Systemfehler [repo main]" rfl (by decide),
    (Error_what_text sample_env (Error.ctor "System error" Option.none)).2 rfl⟩

/-- Counterexample to C2: after an assignment that failed while copying the
message, the target holds the `std::runtime_error` base of the source and
its own format template; its formatter is present and throws, and `what()`
returns the template of the source, not the format template of the error. -/
theorem Error_what_formatter_fails_counterexample :
    (∃ f : Formatter, degraded_target.formatter = Option.some f ∧
        f (sample_env.tm degraded_target.format) = Option.none) ∧
      degraded_target.format = "Repository failure" ∧
      (Error.what sample_env degraded_target).1 = "System error" ∧
      ¬ ((Error.what sample_env degraded_target).1 = degraded_target.format) :=
  ⟨⟨failing_formatter, rfl, rfl⟩, by decide, by decide, by decide⟩

/-- C2, amended. `Error::what`: when the formatter is present but throws on the
looked-up template, the returned text is the text of the `std::runtime_error`
base, and the object is left as it was: no partly formatted text is stored or
returned, and no generic text is used.  That text is the raw, untranslated
format template, whatever the translation lookup gives, for every error whose
base text is its format template; this is so for every constructed error,
and it is kept by `what()` and by every copy and assignment in which
copying the message does not throw. -/
theorem Error_what_formatter_fails (env : Env) (e : Error) (f : Formatter)
    (hf : e.formatter = Option.some f) (hthrow : f (env.tm e.format) = Option.none) :
    Error.what env e = (e.what_arg, e) ∧
      (e.what_arg = e.format → (Error.what env e).1 = e.format) ∧
      (∀ (format : String) (formatter : Option Formatter),
        (Error.ctor format formatter).what_arg = (Error.ctor format formatter).format) ∧
      (∀ x : Error, x.what_arg = x.format →
        (Error.what env x).2.what_arg = (Error.what env x).2.format) ∧
      (∀ (self source : Error) (fault : CopyFault), fault ≠ CopyFault.message →
        source.what_arg = source.format →
        (Error.assign self source fault).what_arg = (Error.assign self source fault).format) ∧
      (∀ (source : Error) (fault : CopyFault) (uninit : String), fault ≠ CopyFault.message →
        source.what_arg = source.format →
        (Error.copy_ctor source fault uninit).what_arg
          = (Error.copy_ctor source fault uninit).format) := by
  have hassign : ∀ (self source : Error) (fault : CopyFault), fault ≠ CopyFault.message →
      source.what_arg = source.format →
      (Error.assign self source fault).what_arg = (Error.assign self source fault).format := by
    intro self source fault hfault hbase
    cases fault with
    | none => exact hbase
    | message => exact absurd rfl hfault
    | formatter =>
      unfold Error.assign
      cases source.formatter <;> exact hbase
  refine ⟨Error_what_formatter_throws env e f hf hthrow, ?_, fun _ _ => rfl, ?_, hassign, ?_⟩
  · intro hbase
    rw [Error_what_formatter_throws env e f hf hthrow]
    exact hbase
  · intro x hbase
    obtain ⟨m, hm⟩ := Error_what_object env x
    rw [hm]
    exact hbase
  · intro source fault uninit hfault hbase
    exact hassign _ source fault hfault hbase

/-- Witness of C2: the template has a translation, the formatter throws, and the
untranslated template comes back. -/
theorem Error_what_formatter_fails_witness :
    Error.what sample_env (Error.ctor "System error" (Option.some failing_formatter))
        = ("System error", Error.ctor "System error" (Option.some failing_formatter)) ∧
      (Error.what sample_env (Error.ctor "System error" (Option.some failing_formatter))).1
        = "System error" :=
  ⟨(Error_what_formatter_fails sample_env
      (Error.ctor "System error" (Option.some failing_formatter)) failing_formatter rfl rfl).1,
    (Error_what_formatter_fails sample_env
      (Error.ctor "System error" (Option.some failing_formatter)) failing_formatter rfl rfl).2.1
      rfl⟩

/-! ## Properties shared by all `what()` members -/

/-- C4. Idempotence: for an error of any class, calling `what()` on the object
left by a first call of `what()` returns the same text as the first call,
also when the first call has written `message` (or `str_what`). -/
theorem what_idempotent (env : Env) :
    (∀ e : Error, (Error.what env (Error.what env e).2).1 = (Error.what env e).1) ∧
      (∀ (e : SystemError) (fmt_throws : Bool),
        (SystemError.what env (SystemError.what env e fmt_throws).2 fmt_throws).1
          = (SystemError.what env e fmt_throws).1) ∧
      (∀ (e : AssertionError) (fault : ComposeFault),
        (AssertionError.what (AssertionError.what e fault).2 fault).1
          = (AssertionError.what e fault).1) ∧
      (∀ (e : UserAssertionError) (fault : ComposeFault),
        (UserAssertionError.what (UserAssertionError.what e fault).2 fault).1
          = (UserAssertionError.what e fault).1) := by
  refine ⟨?_, ?_, ?_, ?_⟩
  · intro e
    obtain ⟨m, hm⟩ := Error_what_object env e
    rw [hm]
    exact Error_what_message_irrelevant env e m
  · intro e fmt_throws
    obtain ⟨m, hm⟩ := SystemError_what_object env e fmt_throws
    rw [hm]
    exact SystemError_what_message_irrelevant env e m fmt_throws
  · intro e fault
    cases fault <;> rfl
  · intro e fault
    cases fault <;> rfl

/-! ## The `message` member as a cache -/

/-- Counterexample to C5: in the degraded copy of an error that was described
before, `message` holds the formatted text, yet `what()` returns the
looked-up template, not the text held by `message`. -/
theorem Error_what_cache_counterexample :
    degraded_copy.message = "Systemfehler [repo main]" ∧
      (Error.what sample_env degraded_copy).1 = "Systemfehler" ∧
      ¬ ((Error.what sample_env degraded_copy).1 = degraded_copy.message) := by
  decide

/-- C5, amended. `Error::what` never reads `message`: for every error the text is
computed anew by every call and is the same whatever `message` holds.  With
no formatter the call returns the looked-up template, whatever `message`
holds, and does not write `message`.  When the formatter is present and
succeeds, `message` holds the returned text after the call, and it holds
that same text, which is also the text returned, after any number of further
calls. -/
theorem Error_what_cache (env : Env) (e : Error) :
    (∀ m : String, (Error.what env { e with message := m }).1 = (Error.what env e).1) ∧
      (e.formatter = Option.none → ∀ m : String,
        Error.what env { e with message := m }
          = (env.tm e.format, { e with message := m })) ∧
      (∀ (f : Formatter) (s : String), e.formatter = Option.some f →
        f (env.tm e.format) = Option.some s →
        (Error.what env e).1 = s ∧
          (Error.what env e).2.message = s ∧
          ∀ n : Nat,
            ((fun x => (Error.what env x).2)^[n] (Error.what env e).2).message = s ∧
              (Error.what env
                ((fun x => (Error.what env x).2)^[n] (Error.what env e).2)).1 = s) := by
  refine ⟨fun m => Error_what_message_irrelevant env e m, ?_, ?_⟩
  · intro hnone m
    exact Error_what_formatter_none env { e with message := m } hnone
  · intro f s hf hs
    have hfix : Error.what env { e with message := s } = (s, { e with message := s }) :=
      Error_what_formatter_some env { e with message := s } f s hf hs
    have hiter : ∀ n : Nat,
        (fun x => (Error.what env x).2)^[n] { e with message := s }
          = { e with message := s } := by
      intro n
      induction n with
      | zero => rfl
      | succ k ih =>
        rw [Function.iterate_succ_apply, hfix]
        exact ih
    refine ⟨?_, ?_, ?_⟩
    · rw [Error_what_formatter_some env e f s hf hs]
    · rw [Error_what_formatter_some env e f s hf hs]
    · intro n
      rw [Error_what_formatter_some env e f s hf hs]
      simp only
      rw [hiter n, hfix]
      exact ⟨rfl, rfl⟩

/-- Witness of C5: the degraded copy returns the looked-up template whatever its
message holds; an error with a translated template and a formatter,
described four times, holds the formatted text. -/
theorem Error_what_cache_witness :
    (Error.what sample_env { degraded_copy with message := "cached" }).1
        = (Error.what sample_env degraded_copy).1 ∧
      Error.what sample_env { degraded_copy with message := "cached" }
        = ("Systemfehler", { degraded_copy with message := "cached" }) ∧
      (Error.what sample_env (Error.ctor "System error" (Option.some sample_formatter))).2.message
        = "Systemfehler [repo main]" ∧
      ((fun x => (Error.what sample_env x).2)^[3]
        (Error.what sample_env
          (Error.ctor "System error" (Option.some sample_formatter))).2).message
        = "Systemfehler [repo main]" :=
  ⟨(Error_what_cache sample_env degraded_copy).1 "cached",
    (Error_what_cache sample_env degraded_copy).2.1 rfl "cached",
    ((Error_what_cache sample_env (Error.ctor "System error" (Option.some sample_formatter))).2.2
      sample_formatter "Systemfehler [repo main]" rfl (by decide)).2.1,
    (((Error_what_cache sample_env
      (Error.ctor "System error" (Option.some sample_formatter))).2.2
      sample_formatter "Systemfehler [repo main]" rfl (by decide)).2.2 3).1⟩

/-! ## Copying an `Error` -/

/-- C6. Degraded copy: when copying the formatter throws inside the copy
constructor, the constructor still yields an object; the copy has no
formatter and carries the format template of the source; its `what()`
returns the looked-up template with no formatter applied, whatever formatter
and message the source holds and whatever the storage of the copy held
before. -/
theorem Error_copy_degraded (env : Env) (e : Error) (uninit : String) :
    (Error.copy_ctor e CopyFault.formatter uninit).formatter = Option.none ∧
      (Error.copy_ctor e CopyFault.formatter uninit).format = e.format ∧
      (Error.what env (Error.copy_ctor e CopyFault.formatter uninit)).1 = env.tm e.format ∧
      ∀ (g : Option Formatter) (m : String),
        (Error.what env
            (Error.copy_ctor { e with formatter := g, message := m }
              CopyFault.formatter uninit)).1
          = (Error.what env (Error.copy_ctor e CopyFault.formatter uninit)).1 := by
  have hcopy : ∀ x : Error,
      (Error.copy_ctor x CopyFault.formatter uninit).formatter = Option.none ∧
        (Error.copy_ctor x CopyFault.formatter uninit).format = x.format := by
    intro x
    unfold Error.copy_ctor Error.assign
    cases x.formatter <;> exact ⟨rfl, rfl⟩
  have hwhat : ∀ x : Error,
      (Error.what env (Error.copy_ctor x CopyFault.formatter uninit)).1 = env.tm x.format := by
    intro x
    rw [Error_what_formatter_none env _ (hcopy x).1, (hcopy x).2]
  refine ⟨(hcopy e).1, (hcopy e).2, hwhat e, ?_⟩
  intro g m
  rw [hwhat, hwhat]

/-- C7. Faithful copy: when no copying step throws, the copy constructor and the
assignment operator both yield an object with the message, the format
template and the formatter of the source (the text of the
`std::runtime_error` base included), so `what()` returns the same text on
the copy as on the source. -/
theorem Error_copy_faithful (env : Env) (e : Error) :
    (∀ uninit : String,
        Error.copy_ctor e CopyFault.none uninit = e ∧
          (Error.copy_ctor e CopyFault.none uninit).message = e.message ∧
          (Error.copy_ctor e CopyFault.none uninit).format = e.format ∧
          (Error.copy_ctor e CopyFault.none uninit).formatter = e.formatter ∧
          (Error.what env (Error.copy_ctor e CopyFault.none uninit)).1 = (Error.what env e).1) ∧
      ∀ self : Error,
        Error.assign self e CopyFault.none = e ∧
          (Error.assign self e CopyFault.none).message = e.message ∧
          (Error.assign self e CopyFault.none).format = e.format ∧
          (Error.assign self e CopyFault.none).formatter = e.formatter ∧
          (Error.what env (Error.assign self e CopyFault.none)).1 = (Error.what env e).1 := by
  have hassign : ∀ self : Error, Error.assign self e CopyFault.none = e := fun _ => rfl
  constructor
  · intro uninit
    have hc : Error.copy_ctor e CopyFault.none uninit = e := hassign _
    rw [hc]
    exact ⟨rfl, rfl, rfl, rfl, rfl⟩
  · intro self
    rw [hassign self]
    exact ⟨rfl, rfl, rfl, rfl, rfl⟩

/-! ## The assertion errors -/

/-- C8. `AssertionError::what`, when composing the text succeeds: for every file
name, line, function name, message and earlier content of `str_what`, the
result is `file:line: function: Assertion 'c' failed: message` when the
condition is `c`, and `file:line: function: Assertion failed: message` when
there is no condition; the line is printed in decimal. -/
theorem AssertionError_what_text (file function message str_what : String) (line : Nat) :
    (∀ c : String,
        (AssertionError.what ⟨message, Option.some c, ⟨file, line, function⟩, str_what⟩
          ComposeFault.none).1
          = file ++ ":" ++ Nat.repr line ++ ": " ++ function ++ ": Assertion \x27" ++ c
              ++ "\x27 failed: " ++ message) ∧
      (AssertionError.what ⟨message, Option.none, ⟨file, line, function⟩, str_what⟩
          ComposeFault.none).1
        = file ++ ":" ++ Nat.repr line ++ ": " ++ function ++ ": Assertion failed: " ++ message ∧
      (AssertionError.what (AssertionError.ctor (Option.some "x>0") ⟨"a.c", 10, "f"⟩ "bad")
          ComposeFault.none).1
        = "a.c:10: f: Assertion \x27x>0\x27 failed: bad" := by
  refine ⟨?_, ?_, ?_⟩
  · intro c
    simp only [AssertionError.what, SourceLocation.text, String.append_assoc]
  · simp only [AssertionError.what, SourceLocation.text, String.append_assoc]
  · decide

/-- C9. `UserAssertionError::what`, when composing the text succeeds: for every
file name, line, function name, message and earlier content of `str_what`,
the result is `file:line: function: API Assertion failed: message` when
there is no condition, and
`file:line: function: API Assertion 'c' failed: message` when the condition
is `c`; the line is printed in decimal. -/
theorem UserAssertionError_what_text (file function message str_what : String) (line : Nat) :
    (UserAssertionError.what ⟨message, Option.none, ⟨file, line, function⟩, str_what⟩
          ComposeFault.none).1
        = file ++ ":" ++ Nat.repr line ++ ": " ++ function ++ ": API Assertion failed: "
            ++ message ∧
      (∀ c : String,
        (UserAssertionError.what ⟨message, Option.some c, ⟨file, line, function⟩, str_what⟩
          ComposeFault.none).1
          = file ++ ":" ++ Nat.repr line ++ ": " ++ function ++ ": API Assertion \x27" ++ c
              ++ "\x27 failed: " ++ message) ∧
      (UserAssertionError.what (UserAssertionError.ctor Option.none ⟨"a.c", 10, "f"⟩ "bad")
          ComposeFault.none).1
        = "a.c:10: f: API Assertion failed: bad" := by
  refine ⟨?_, ?_, ?_⟩
  · simp only [UserAssertionError.what, SourceLocation.text, String.append_assoc]
  · intro c
    simp only [UserAssertionError.what, SourceLocation.text, String.append_assoc]
  · decide

/-! ## `SystemError::what` -/

/-- C10. `SystemError::what` without a user message, when `fmt::format` does not
throw: if the platform lookup yields `os_message`, which is then also what
`get_error_message` returns, the description is `(code) - os_message`; if
the lookup throws, the empty text takes the place of `os_message` and the
description is `(code) - `.  The code is printed in decimal. -/
theorem SystemError_what_no_user_message (env : Env) (e : SystemError)
    (hno_user : e.has_user_message = false) :
    (∀ os_message : String, env.os_message e.error_code = Option.some os_message →
        SystemError.get_error_message env e = Option.some os_message ∧
          (SystemError.what env e false).1
            = "(" ++ to_decimal e.error_code ++ ") - " ++ os_message) ∧
      (env.os_message e.error_code = Option.none →
        (SystemError.what env e false).1 = "(" ++ to_decimal e.error_code ++ ") - ") := by
  constructor
  · intro os_message hos
    refine ⟨hos, ?_⟩
    simp [SystemError.what, hno_user, hos]
  · intro hos
    simp [SystemError.what, hno_user, hos]

/-- Witness of C10: code 2 resolves to `No such file or directory`, and the
lookup throws on code 99. -/
theorem SystemError_what_no_user_message_witness :
    (SystemError.get_error_message sample_env (SystemError.ctor 2)
        = Option.some "No such file or directory" ∧
      (SystemError.what sample_env (SystemError.ctor 2) false).1
        = "(2) - No such file or directory") ∧
      (SystemError.what sample_env (SystemError.ctor 99) false).1 = "(99) - " :=
  ⟨(SystemError_what_no_user_message sample_env (SystemError.ctor 2) rfl).1
      "No such file or directory" (by decide),
    (SystemError_what_no_user_message sample_env (SystemError.ctor 99) rfl).2 (by decide)⟩

/-- C11. `SystemError::what` with a user message, when `fmt::format` does not
throw: the description is `user_message: (code) - os_message`, where
`user_message` is the output of the formatter on the looked-up template when
a formatter is present (and succeeds), and the looked-up template itself when
there is none; `os_message` is the platform message, empty when its lookup
throws.  The code is printed in decimal. -/
theorem SystemError_what_user_message (env : Env) (e : SystemError)
    (huser : e.has_user_message = true) :
    (∀ (f : Formatter) (user_message : String), e.formatter = Option.some f →
        f (env.tm e.format) = Option.some user_message →
        (SystemError.what env e false).1
          = user_message ++ ": (" ++ to_decimal e.error_code ++ ") - "
              ++ (env.os_message e.error_code).getD "") ∧
      (e.formatter = Option.none →
        (SystemError.what env e false).1
          = env.tm e.format ++ ": (" ++ to_decimal e.error_code ++ ") - "
              ++ (env.os_message e.error_code).getD "") := by
  constructor
  · intro f user_message hf hu
    cases hos : env.os_message e.error_code <;>
      simp [SystemError.what, huser, hf, hu, hos]
  · intro hf
    cases hos : env.os_message e.error_code <;>
      simp [SystemError.what, huser, hf, hos]

/-- Witness of C11: the user message `opening config` on code 2, once through a
formatter and once without. -/
theorem SystemError_what_user_message_witness :
    (SystemError.what sample_env
        { sample_user_error with formatter := Option.some plain_formatter } false).1
        = "opening config: (2) - No such file or directory" ∧
      (SystemError.what sample_env sample_user_error false).1
        = "opening config: (2) - No such file or directory" :=
  ⟨(SystemError_what_user_message sample_env
      { sample_user_error with formatter := Option.some plain_formatter } rfl).1
      plain_formatter "opening config" rfl (by decide),
    (SystemError_what_user_message sample_env sample_user_error rfl).2 rfl⟩

/-- C15. `SystemError::what` without a user message, when `fmt::format` throws:
if the platform message is empty (its lookup threw or gave the empty text),
the result is the text of the `std::runtime_error` base, which for an error
built by `SystemError(int)` is the untranslated template `System error`; if
the platform message is not empty, the result is the platform message
alone. -/
theorem SystemError_what_compose_fails (env : Env) (e : SystemError)
    (hno_user : e.has_user_message = false) :
    (env.os_message e.error_code = Option.none ∨ env.os_message e.error_code = Option.some "" →
        (SystemError.what env e true).1 = e.what_arg) ∧
      (∀ os_message : String, env.os_message e.error_code = Option.some os_message →
        os_message ≠ "" → (SystemError.what env e true).1 = os_message) ∧
      (∀ code : Int,
        env.os_message code = Option.none ∨ env.os_message code = Option.some "" →
        (SystemError.what env (SystemError.ctor code) true).1 = "System error") := by
  have hempty : ∀ x : SystemError, x.has_user_message = false →
      env.os_message x.error_code = Option.none ∨ env.os_message x.error_code = Option.some "" →
      (SystemError.what env x true).1 = x.what_arg := by
    intro x hx hos
    rcases hos with hos | hos <;> simp [SystemError.what, hx, hos]
  refine ⟨hempty e hno_user, ?_, ?_⟩
  · intro os_message hos hne
    simp [SystemError.what, hno_user, hos, hne]
  · intro code hos
    exact hempty (SystemError.ctor code) rfl hos

/-- Witness of C15: the lookup throws on code 99 and the translated template is
not used; code 13 has a platform message. -/
theorem SystemError_what_compose_fails_witness :
    (SystemError.what sample_env (SystemError.ctor 99) true).1 = "System error" ∧
      (SystemError.what sample_env (SystemError.ctor 13) true).1 = "Permission denied" :=
  ⟨(SystemError_what_compose_fails sample_env (SystemError.ctor 99) rfl).1
      (Or.inl (by decide)),
    (SystemError_what_compose_fails sample_env (SystemError.ctor 13) rfl).2.1
      "Permission denied" (by decide) (by decide)⟩

/-- C19. `SystemError::what` with a user message, when the formatter throws or
`fmt::format` throws: the result is the looked-up format template alone,
whatever the error code and the platform message are, and the object is
left as it was. -/
theorem SystemError_what_user_compose_fails (env : Env) (e : SystemError)
    (huser : e.has_user_message = true) :
    (∀ f : Formatter, e.formatter = Option.some f → f (env.tm e.format) = Option.none →
        ∀ fmt_throws : Bool, SystemError.what env e fmt_throws = (env.tm e.format, e)) ∧
      SystemError.what env e true = (env.tm e.format, e) ∧
      ∀ (code : Int) (os_message : Int → Option String),
        (SystemError.what { env with os_message := os_message }
            { e with error_code := code } true).1
          = env.tm e.format := by
  have hthrows : ∀ (v : Env) (x : SystemError), x.has_user_message = true →
      SystemError.what v x true = (v.tm x.format, x) := by
    intro v x hx
    unfold SystemError.what
    simp only [hx, if_true]
    split
    · contradiction
    · rfl
  refine ⟨?_, hthrows env e huser, ?_⟩
  · intro f hf hnone fmt_throws
    unfold SystemError.what
    simp only [huser, if_true, hf, hnone]
  · intro code os_message
    rw [hthrows { env with os_message := os_message } { e with error_code := code } huser]

/-- Witness of C19: the user message `opening config` on code 2, with a formatter
that throws and with `fmt::format` throwing. -/
theorem SystemError_what_user_compose_fails_witness :
    (SystemError.what sample_env
        { sample_user_error with formatter := Option.some failing_formatter } false).1
        = "opening config" ∧
      (SystemError.what sample_env sample_user_error true).1 = "opening config" :=
  ⟨congrArg Prod.fst
      ((SystemError_what_user_compose_fails sample_env
        { sample_user_error with formatter := Option.some failing_formatter } rfl).1
        failing_formatter rfl rfl false),
    congrArg Prod.fst
      (SystemError_what_user_compose_fails sample_env sample_user_error rfl).2.1⟩

/-! ## Rendering a chain: helper lemmas -/

/-- Folding `++` over a list of texts from `acc` is `acc` followed by the fold
from the empty text. -/
theorem foldl_append_from (l : List String) (acc : String) :
    List.foldl (fun r t => r ++ t) acc l = acc ++ List.foldl (fun r t => r ++ t) "" l := by
  induction l generalizing acc with
  | nil => simp
  | cons a t ih =>
    simp only [List.foldl_cons]
    rw [ih (acc ++ a), ih ("" ++ a)]
    simp [String.append_assoc]

/-- Joining a list of texts: the first text followed by the join of the rest. -/
theorem string_join_cons (a : String) (l : List String) :
    String.join (a :: l) = a ++ String.join l := by
  unfold String.join
  simp only [List.foldl_cons]
  rw [foldl_append_from]
  simp

/-- One level deeper, the indentation is one space longer (at its end). -/
theorem indent_succ (level : Nat) : indent (level + 1) = indent level ++ " " := by
  unfold indent
  rw [List.replicate_succ']
  rfl

/-- One level deeper, the indentation is one space longer (at its start). -/
theorem indent_succ_left (level : Nat) : indent (level + 1) = " " ++ indent level := by
  unfold indent
  rw [List.replicate_succ]
  rfl

/-- The indentation of a level has as many characters as the level. -/
theorem indent_length (level : Nat) : (indent level).length = level := by
  simp [indent, String.length]

/-- The line `format` builds for one exception is the indentation, the line text
of the spec and a newline. -/
theorem format_head_eq (info : ExceptionInfo) (level : Nat) (with_domain : Bool) :
    format_head info level with_domain
      = indent level ++ spec_line_text info with_domain ++ "\n" := by
  cases info with
  | error domain_name name what =>
    cases with_domain <;> simp [format_head, spec_line_text, String.append_assoc]
  | other what => simp [format_head, spec_line_text]

/-- The spec lines of a chain: the line of its first exception, then the lines of
the others one level deeper. -/
theorem spec_lines_cons (info : ExceptionInfo) (infos : List ExceptionInfo) (level : Nat)
    (with_domain : Bool) :
    spec_lines (info :: infos) level with_domain
      = (indent level ++ spec_line_text info with_domain ++ "\n")
          :: spec_lines infos (level + 1) with_domain := by
  simp [spec_lines, List.enumFrom_cons]

/-- The rendering of a chain from a level on is the join of its spec lines. -/
theorem format_level_eq (e : Exception) (level : Nat) (with_domain : Bool) :
    format_level e level with_domain
      = String.join (spec_lines (Exception.infos e) level with_domain) := by
  induction e generalizing level with
  | plain info =>
    simp [format_level, Exception.infos, spec_lines_cons, string_join_cons, format_head_eq,
      spec_lines, String.join]
  | nested info cause ih =>
    simp only [format_level, Exception.infos, spec_lines_cons, string_join_cons]
    rw [ih (level + 1), format_head_eq]
  | nested_other info thrown beneath =>
    simp [format_level, Exception.infos, spec_lines_cons, string_join_cons, format_head_eq,
      spec_lines, String.join]

/-- The spec line at a position of a chain rendered from a level on. -/
theorem spec_lines_getElem (infos : List ExceptionInfo) (level : Nat) (with_domain : Bool)
    (i : Nat) (info : ExceptionInfo) (h : infos[i]? = Option.some info) :
    (spec_lines infos level with_domain)[i]?
      = Option.some (indent (level + i) ++ spec_line_text info with_domain ++ "\n") := by
  induction infos generalizing level i with
  | nil => simp at h
  | cons a t ih =>
    rw [spec_lines_cons]
    cases i with
    | zero =>
      simp only [List.getElem?_cons_zero, Option.some.injEq] at h
      simp [h]
    | succ j =>
      simp only [List.getElem?_cons_succ] at h
      simp only [List.getElem?_cons_succ]
      rw [ih (level + 1) j h]
      have hl : level + 1 + j = level + (j + 1) := by omega
      rw [hl]

/-- Rendering one level deeper puts one more space before each line. -/
theorem spec_lines_succ (infos : List ExceptionInfo) (level : Nat) (with_domain : Bool) :
    spec_lines infos (level + 1) with_domain
      = List.map (fun l => " " ++ l) (spec_lines infos level with_domain) := by
  induction infos generalizing level with
  | nil => simp [spec_lines]
  | cons a t ih =>
    rw [spec_lines_cons, spec_lines_cons, List.map_cons, ih (level + 1), indent_succ_left]
    simp [String.append_assoc]

/-- A rendering ends with a newline. -/
theorem format_level_ends_newline (e : Exception) (level : Nat) (with_domain : Bool) :
    ∃ body : String, format_level e level with_domain = body ++ "\n" := by
  induction e generalizing level with
  | plain info =>
    exact ⟨indent level ++ spec_line_text info with_domain, by
      simp [format_level, format_head_eq]⟩
  | nested info cause ih =>
    obtain ⟨body, hbody⟩ := ih (level + 1)
    exact ⟨format_head info level with_domain ++ body, by
      simp [format_level, hbody, String.append_assoc]⟩
  | nested_other info thrown beneath =>
    exact ⟨indent level ++ spec_line_text info with_domain, by
      simp [format_level, format_head_eq]⟩

/-! ## Rendering a chain -/

/-- C12. `format`: for a chain of `n` exceptions `e_0` (outermost) to `e_(n-1)`
(innermost), the output is the concatenation of exactly `n` lines in the
order of the chain, and the line of `e_i` is `i` space characters, then the
line text of `e_i`, then a newline. -/
theorem format_lines_in_order (e : Exception) (with_domain : Bool) :
    format e with_domain = String.join (spec_lines (Exception.infos e) 0 with_domain) ∧
      (spec_lines (Exception.infos e) 0 with_domain).length = (Exception.infos e).length ∧
      ∀ (i : Nat) (info : ExceptionInfo), (Exception.infos e)[i]? = Option.some info →
        (spec_lines (Exception.infos e) 0 with_domain)[i]?
            = Option.some (indent i ++ spec_line_text info with_domain ++ "\n") ∧
          (indent i).length = i := by
  refine ⟨format_level_eq e 0 with_domain, by simp [spec_lines], ?_⟩
  intro i info h
  refine ⟨?_, indent_length i⟩
  have hline := spec_lines_getElem (Exception.infos e) 0 with_domain i info h
  rw [Nat.zero_add] at hline
  exact hline

/-- Witness of C12: the chain of three errors renders as three lines, and its third
line starts with two spaces. -/
theorem format_lines_in_order_witness :
    format sample_chain true
        = "libdnf::transaction::TransactionError: apply failed\n"
          ++ " libdnf::utils::SQLite3Error: write failed\n"
          ++ "  libdnf::SystemError: (28) - No space left on device\n" ∧
      (spec_lines (Exception.infos sample_chain) 0 true).length = 3 ∧
      (spec_lines (Exception.infos sample_chain) 0 true)[2]?
        = Option.some "  libdnf::SystemError: (28) - No space left on device\n" :=
  ⟨(format_lines_in_order sample_chain true).1,
    (format_lines_in_order sample_chain true).2.1,
    ((format_lines_in_order sample_chain true).2.2 2
      (ExceptionInfo.error "libdnf" "SystemError" "(28) - No space left on device") rfl).1⟩

/-- C13. `format`, the text of a line: after the indentation, the line built for
an exception is `domain::name: description` when the exception is an `Error`
and `with_domain` is set, `name: description` when it is an `Error` and
`with_domain` is not set, and the description alone when it is no `Error`;
one newline follows in each case.  Every line of a rendered chain is built
this way. -/
theorem format_line_text (level : Nat) (domain_name name description : String) :
    format_head (ExceptionInfo.error domain_name name description) level true
        = indent level ++ (domain_name ++ "::" ++ name ++ ": " ++ description) ++ "\n" ∧
      format_head (ExceptionInfo.error domain_name name description) level false
        = indent level ++ (name ++ ": " ++ description) ++ "\n" ∧
      (∀ with_domain : Bool,
        format_head (ExceptionInfo.other description) level with_domain
          = indent level ++ description ++ "\n") ∧
      ∀ (e : Exception) (with_domain : Bool),
        format_level e level with_domain
          = String.join
              (List.map (fun p => format_head p.2 p.1 with_domain)
                (List.enumFrom level (Exception.infos e))) := by
  refine ⟨?_, ?_, ?_, ?_⟩
  · simp [format_head, String.append_assoc]
  · simp [format_head, String.append_assoc]
  · intro with_domain
    simp [format_head]
  · intro e with_domain
    rw [format_level_eq]
    simp [spec_lines, format_head_eq]

/-- Counterexample to C14: in the rendering of the chain of three errors the
second line is indented by one space and the third by two, not by two and
four. -/
theorem format_indent_counterexample :
    format sample_chain false
        = "TransactionError: apply failed\n"
          ++ " SQLite3Error: write failed\n"
          ++ "  SystemError: (28) - No space left on device\n" ∧
      ¬ (format sample_chain false
        = "TransactionError: apply failed\n"
          ++ "  SQLite3Error: write failed\n"
          ++ "    SystemError: (28) - No space left on device\n") := by
  decide

/-- C14, amended. `format`: the line of each level is indented by one more space
than the line of the level above it; each level's line ends with a newline,
and so does the whole output. -/
theorem format_indent_step (e : Exception) (with_domain : Bool) :
    format e with_domain = String.join (spec_lines (Exception.infos e) 0 with_domain) ∧
      (∀ (i : Nat) (above below : ExceptionInfo),
        (Exception.infos e)[i]? = Option.some above →
        (Exception.infos e)[i + 1]? = Option.some below →
        (spec_lines (Exception.infos e) 0 with_domain)[i]?
            = Option.some (indent i ++ spec_line_text above with_domain ++ "\n") ∧
          (spec_lines (Exception.infos e) 0 with_domain)[i + 1]?
            = Option.some (indent i ++ " " ++ spec_line_text below with_domain ++ "\n")) ∧
      ∃ body : String, format e with_domain = body ++ "\n" := by
  refine ⟨format_level_eq e 0 with_domain, ?_, format_level_ends_newline e 0 with_domain⟩
  intro i above below habove hbelow
  have h1 := spec_lines_getElem (Exception.infos e) 0 with_domain i above habove
  have h2 := spec_lines_getElem (Exception.infos e) 0 with_domain (i + 1) below hbelow
  rw [Nat.zero_add] at h1 h2
  rw [indent_succ] at h2
  exact ⟨h1, h2⟩

/-- Witness of C14: the second and the third line of the chain of three errors. -/
theorem format_indent_step_witness :
    (spec_lines (Exception.infos sample_chain) 0 false)[1]?
        = Option.some (indent 1 ++ "SQLite3Error: write failed" ++ "\n") ∧
      (spec_lines (Exception.infos sample_chain) 0 false)[1 + 1]?
        = Option.some
            (indent 1 ++ " " ++ "SystemError: (28) - No space left on device" ++ "\n") :=
  (format_indent_step sample_chain false).2.1 1
    (ExceptionInfo.error "libdnf::utils" "SQLite3Error" "write failed")
    (ExceptionInfo.error "libdnf" "SystemError" "(28) - No space left on device") rfl rfl

/-- C16. The audience changes only the label: when composing the text succeeds,
for every condition (present or absent), location and message, both texts
start with `file:line: function: `; then `AssertionError::what` continues
with `Assertion` and `UserAssertionError::what` with `API Assertion`; what
follows is the same text in both. -/
theorem assertion_audience_label (file function message str_what str_what_user : String)
    (line : Nat) (condition : Option String) :
    ∃ rest : String,
      (AssertionError.what ⟨message, condition, ⟨file, line, function⟩, str_what⟩
          ComposeFault.none).1
        = file ++ ":" ++ Nat.repr line ++ ": " ++ function ++ ": " ++ "Assertion" ++ rest ∧
      (UserAssertionError.what ⟨message, condition, ⟨file, line, function⟩, str_what_user⟩
          ComposeFault.none).1
        = file ++ ":" ++ Nat.repr line ++ ": " ++ function ++ ": " ++ "API " ++ "Assertion"
            ++ rest ∧
      rest
        = (match condition with
            | Option.some c => " \x27" ++ c ++ "\x27 failed: "
            | Option.none => " failed: ") ++ message := by
  have h1 : ": Assertion \x27" = ": " ++ ("Assertion" ++ " \x27") := by decide
  have h2 : ": API Assertion \x27" = ": " ++ ("API " ++ ("Assertion" ++ " \x27")) := by decide
  have h3 : ": Assertion failed: " = ": " ++ ("Assertion" ++ " failed: ") := by decide
  have h4 : ": API Assertion failed: " = ": " ++ ("API " ++ ("Assertion" ++ " failed: ")) := by
    decide
  cases condition with
  | none =>
    refine ⟨" failed: " ++ message, ?_, ?_, rfl⟩
    · simp only [AssertionError.what, SourceLocation.text, h3, String.append_assoc]
    · simp only [UserAssertionError.what, SourceLocation.text, h4, String.append_assoc]
  | some c =>
    refine ⟨" \x27" ++ c ++ "\x27 failed: " ++ message, ?_, ?_, rfl⟩
    · simp only [AssertionError.what, SourceLocation.text, h1, String.append_assoc]
    · simp only [UserAssertionError.what, SourceLocation.text, h2, String.append_assoc]

/-- C17. Compositionality of `format`: the rendering of an exception with a
nested `std::exception` at a level is the single line of the exception at that
level followed by the rendering of the cause one level deeper; the rendering
of an exception with nothing nested is that single line alone.  Hence the
rendering of a wrapped exception is its own line followed by the lines of the
rendering of its cause, each with one more space in front. -/
theorem format_compositional (info : ExceptionInfo) (cause : Exception) (level : Nat)
    (with_domain : Bool) :
    format_level (Exception.nested info cause) level with_domain
        = format_level (Exception.plain info) level with_domain
            ++ format_level cause (level + 1) with_domain ∧
      format_level (Exception.plain info) level with_domain
        = indent level ++ spec_line_text info with_domain ++ "\n" ∧
      format_level cause level with_domain
        = String.join (spec_lines (Exception.infos cause) level with_domain) ∧
      format_level cause (level + 1) with_domain
        = String.join
            (List.map (fun l => " " ++ l)
              (spec_lines (Exception.infos cause) level with_domain)) ∧
      format (Exception.nested info cause) with_domain
        = (spec_line_text info with_domain ++ "\n")
            ++ String.join
                (List.map (fun l => " " ++ l)
                  (spec_lines (Exception.infos cause) 0 with_domain)) := by
  have hplain : format_level (Exception.plain info) level with_domain
      = indent level ++ spec_line_text info with_domain ++ "\n" := by
    simp only [format_level, format_head_eq]
  have hdeeper : ∀ k : Nat, format_level cause (k + 1) with_domain
      = String.join
          (List.map (fun l => " " ++ l) (spec_lines (Exception.infos cause) k with_domain)) := by
    intro k
    rw [format_level_eq, spec_lines_succ]
  refine ⟨rfl, hplain, format_level_eq cause level with_domain, hdeeper level, ?_⟩
  have hzero : indent 0 = "" := rfl
  simp only [format, format_level, format_head_eq, hzero, String.empty_append]
  rw [hdeeper 0]

/-- C18. Truncation of the chain: where a nested exception is no
`std::exception`, `format` stops: it returns a text, the same text as for the
chain cut off above that nested exception, so neither the nested exception
nor anything beneath it contributes to the output, which is made of the
lines of the exceptions above only. -/
theorem format_truncates (e : Exception) (level : Nat) (with_domain : Bool) :
    format_level e level with_domain = format_level (Exception.cut e) level with_domain ∧
      (∀ (info : ExceptionInfo) (thrown : String) (beneath : List ExceptionInfo),
        format_level (Exception.nested_other info thrown beneath) level with_domain
          = format_level (Exception.plain info) level with_domain) ∧
      format_level e level with_domain
        = String.join (spec_lines (Exception.infos e) level with_domain) ∧
      format sample_cut_chain false = "Error: outer\n std::exception\n" := by
  refine ⟨?_, fun _ _ _ => rfl, format_level_eq e level with_domain, by decide⟩
  induction e generalizing level with
  | plain info => rfl
  | nested info cause ih =>
    simp only [format_level, Exception.cut]
    rw [ih (level + 1)]
  | nested_other info thrown beneath => rfl

/-! ## Degraded assignment -/

/-- C20. Degraded assignment: when the target has a formatter and copying the
formatter of the source throws inside `operator=`, the target keeps its own
formatter and holds the message and the format template of the source, so
its `what()` returns the output of the target's own formatter on the
looked-up template of the source (and the text of the source's base when
that formatter throws).  When copying the message throws, the target keeps
its own message, format template and formatter. -/
theorem Error_assign_degraded (env : Env) (self e : Error) (f g : Formatter)
    (hself : self.formatter = Option.some f) (hsource : e.formatter = Option.some g) :
    ((Error.assign self e CopyFault.formatter).formatter = Option.some f ∧
        (Error.assign self e CopyFault.formatter).message = e.message ∧
        (Error.assign self e CopyFault.formatter).format = e.format) ∧
      (∀ s : String, f (env.tm e.format) = Option.some s →
        (Error.what env (Error.assign self e CopyFault.formatter)).1 = s) ∧
      (f (env.tm e.format) = Option.none →
        (Error.what env (Error.assign self e CopyFault.formatter)).1 = e.what_arg) ∧
      ((Error.assign self e CopyFault.message).format = self.format ∧
        (Error.assign self e CopyFault.message).formatter = self.formatter ∧
        (Error.assign self e CopyFault.message).message = self.message) := by
  have hfields : (Error.assign self e CopyFault.formatter).formatter = Option.some f ∧
      (Error.assign self e CopyFault.formatter).message = e.message ∧
      (Error.assign self e CopyFault.formatter).format = e.format ∧
      (Error.assign self e CopyFault.formatter).what_arg = e.what_arg := by
    have hassign : Error.assign self e CopyFault.formatter
        = { self with what_arg := e.what_arg, message := e.message, format := e.format } := by
      unfold Error.assign
      simp only [hsource]
    rw [hassign]
    exact ⟨hself, rfl, rfl, rfl⟩
  refine ⟨⟨hfields.1, hfields.2.1, hfields.2.2.1⟩, ?_, ?_, ⟨rfl, rfl, rfl⟩⟩
  · intro s hs
    have hs2 : f (env.tm (Error.assign self e CopyFault.formatter).format) = Option.some s := by
      rw [hfields.2.2.1]
      exact hs
    rw [Error_what_formatter_some env _ f s hfields.1 hs2]
  · intro hs
    have hs2 : f (env.tm (Error.assign self e CopyFault.formatter).format) = Option.none := by
      rw [hfields.2.2.1]
      exact hs
    rw [Error_what_formatter_throws env _ f hfields.1 hs2]
    exact hfields.2.2.2

/-- Witness of C20: a target with a formatter that appends a repository name is
assigned from a source with the template `System error`; the formatter of the
target is applied to the translation of the source's template. -/
theorem Error_assign_degraded_witness :
    (Error.what sample_env
        (Error.assign (Error.ctor "Repository failure" (Option.some sample_formatter))
          (Error.ctor "System error" (Option.some plain_formatter)) CopyFault.formatter)).1
        = "Systemfehler [repo main]" ∧
      (Error.assign (Error.ctor "Repository failure" (Option.some sample_formatter))
          (Error.ctor "System error" (Option.some plain_formatter)) CopyFault.message).format
        = "Repository failure" :=
  ⟨(Error_assign_degraded sample_env
      (Error.ctor "Repository failure" (Option.some sample_formatter))
      (Error.ctor "System error" (Option.some plain_formatter))
      sample_formatter plain_formatter rfl rfl).2.1 "Systemfehler [repo main]" (by decide),
    (Error_assign_degraded sample_env
      (Error.ctor "Repository failure" (Option.some sample_formatter))
      (Error.ctor "System error" (Option.some plain_formatter))
      sample_formatter plain_formatter rfl rfl).2.2.2.1⟩

end Libdnf
